import Mathlib

/-!
Verification model of the duplicate-detection and resolution engine of the
`senai_pos_ia_logica` master-data-management application.

The definitions below are a shallow embedding of the Python sources:
  * `src/mdm/services/duplicate_service.py` (class `DuplicateDetectionService`)
  * `src/mdm/models/audit.py` (class `PotentialDuplicate`)
  * `src/mdm/models/client.py` / `product.py` / `supplier.py` (repository calls
    used by the service: `get_all`, `get_by_id`, `delete`)
  * `src/mdm/config/database.py` (the `potential_duplicates` schema)

Python floats are modelled exactly over `ℚ` (the weight literals 0.4/0.3/0.2/0.1
become 4/10, 3/10, 2/10, 1/10); every numeric verdict proved below is far from
any float-rounding boundary.  SQL `NULL`/absent text fields are modelled as the
empty string, which has the same truthiness in the Python code.  The similarity
primitive `difflib.SequenceMatcher.ratio()` (stdlib, called with `junk=None` on
short strings, so the autojunk heuristic is inert) is embedded in full below.
-/

set_option maxRecDepth 4096

/- `Rat.add` etc. are `@[irreducible]` in Batteries, which blocks `decide` on
concrete rational computations; restore the default reducibility. -/
attribute [local semireducible] Rat.add Rat.mul Rat.inv Rat.sub

namespace Mdm

/-- Python `str.strip()` on a character list: drop leading and trailing
whitespace.  (`Char.isWhitespace` covers the whitespace that can occur in the
fields compared here.) -/
def stripChars (l : List Char) : List Char :=
  ((l.dropWhile Char.isWhitespace).reverse.dropWhile Char.isWhitespace).reverse

/-- Python `str.lower()` on a character list.  `Char.toLower` lower-cases the
ASCII range, agreeing with Python on the ASCII letters appearing in the
records considered. -/
def lowerChars (l : List Char) : List Char := l.map Char.toLower

/-- Python `str.isdigit` for a single character (ASCII digits). -/
def pyIsDigit (c : Char) : Bool := c.isDigit

/-- Python `str.isalnum` for a single character (ASCII letters and digits). -/
def pyIsAlnum (c : Char) : Bool := c.isAlphanum

/-! ### difflib.SequenceMatcher (stdlib), junk-free case

`SequenceMatcher(None, a, b)` on short strings (autojunk only fires for
`len(b) >= 200`) has no junk elements, so `isbjunk` is constantly false. -/

/-- The ascending list of positions of `c` in `b`: `b2j[c]` of difflib. -/
def occIndices (b : List Char) (c : Char) : List Nat :=
  (List.range b.length).filter (fun j => b.get? j == some c)

/-- Dictionary lookup with default 0: `j2len.get(k, 0)`. -/
def lookupLen (l : List (Nat × Nat)) (k : Nat) : Nat :=
  match l.find? (fun p => p.1 == k) with
  | some p => p.2
  | none => 0

/-- Inner loop of `find_longest_match`: `for j in b2j.get(a[i], [])`, with
`continue` below `blo` and `break` at `bhi`, building `newj2len` and updating
the best block when `k > bestsize`. -/
def flmInner (i blo bhi : Nat) (j2len : List (Nat × Nat)) :
    List Nat → (Nat × Nat × Nat) → List (Nat × Nat) → ((Nat × Nat × Nat) × List (Nat × Nat))
  | [], best, newj2len => (best, newj2len)
  | j :: js, best, newj2len =>
    if j < blo then flmInner i blo bhi j2len js best newj2len
    else if bhi ≤ j then (best, newj2len)
    else
      let k := (if j = 0 then 0 else lookupLen j2len (j - 1)) + 1
      let best' := if best.2.2 < k then (i + 1 - k, j + 1 - k, k) else best
      flmInner i blo bhi j2len js best' ((j, k) :: newj2len)

/-- Outer loop of `find_longest_match`: `for i in range(alo, ahi)`, replacing
`j2len` by `newj2len` after each row. -/
def flmOuter (a b : List Char) (blo bhi : Nat) :
    List Nat → List (Nat × Nat) → (Nat × Nat × Nat) → (Nat × Nat × Nat)
  | [], _, best => best
  | i :: is, j2len, best =>
    match a.get? i with
    | none => best
    | some c =>
      let r := flmInner i blo bhi j2len (occIndices b c) best []
      flmOuter a b blo bhi is r.2 r.1

/-- Backward extension of the best block over equal (non-junk) characters;
with no junk this is difflib's first `while` pair.  Fuel-bounded (`besti`
decreases each step). -/
def extendBack (a b : List Char) (alo blo : Nat) :
    Nat → (Nat × Nat × Nat) → (Nat × Nat × Nat)
  | 0, best => best
  | fuel + 1, (besti, bestj, bestsize) =>
    if alo < besti ∧ blo < bestj ∧
        (a.get? (besti - 1)).isSome ∧ a.get? (besti - 1) = b.get? (bestj - 1) then
      extendBack a b alo blo fuel (besti - 1, bestj - 1, bestsize + 1)
    else (besti, bestj, bestsize)

/-- Forward extension of the best block over equal (non-junk) characters. -/
def extendFwd (a b : List Char) (ahi bhi : Nat) :
    Nat → (Nat × Nat × Nat) → (Nat × Nat × Nat)
  | 0, best => best
  | fuel + 1, (besti, bestj, bestsize) =>
    if besti + bestsize < ahi ∧ bestj + bestsize < bhi ∧
        (a.get? (besti + bestsize)).isSome ∧
        a.get? (besti + bestsize) = b.get? (bestj + bestsize) then
      extendFwd a b ahi bhi fuel (besti, bestj, bestsize + 1)
    else (besti, bestj, bestsize)

/-- `SequenceMatcher.find_longest_match(alo, ahi, blo, bhi)` in the junk-free
case (the junk-extension loops are no-ops and are omitted). -/
def findLongestMatch (a b : List Char) (alo ahi blo bhi : Nat) : Nat × Nat × Nat :=
  let best := flmOuter a b blo bhi ((List.range (ahi - alo)).map (· + alo)) [] (alo, blo, 0)
  extendFwd a b ahi bhi ahi (extendBack a b alo blo best.1 best)

/-- Total number of matched elements over `get_matching_blocks` (the sum of
block sizes; difflib's queue order and zero-size sentinel do not change the
sum).  Fuel-bounded; the recursion strictly shrinks the window. -/
def matchedTotal (a b : List Char) : Nat → Nat → Nat → Nat → Nat → Nat
  | 0, _, _, _, _ => 0
  | fuel + 1, alo, ahi, blo, bhi =>
    let r := findLongestMatch a b alo ahi blo bhi
    let i := r.1; let j := r.2.1; let k := r.2.2
    if k = 0 then 0
    else matchedTotal a b fuel alo i blo j + k + matchedTotal a b fuel (i + k) ahi (j + k) bhi

/-- `SequenceMatcher(None, a, b).ratio()`: `2*M/T`, and 1.0 when both inputs
are empty. -/
def sequenceMatcherRatio (a b : List Char) : ℚ :=
  let m := matchedTotal a b (a.length + b.length + 1) 0 a.length 0 b.length
  let t := a.length + b.length
  if t = 0 then 1 else (2 * m : ℚ) / (t : ℚ)

/-! ### Similarity primitives (`DuplicateDetectionService`) -/

/-- `DuplicateDetectionService.calculate_similarity`: 0.0 when either input is
empty, otherwise the difflib ratio of the lower-cased, stripped strings. -/
def calculate_similarity (text1 text2 : String) : ℚ :=
  if text1 = "" ∨ text2 = "" then 0
  else
    sequenceMatcherRatio (stripChars (lowerChars text1.toList))
      (stripChars (lowerChars text2.toList))

/-- `DuplicateDetectionService.normalize_document`: keep only alphanumeric
characters of the lower-cased string; empty input stays empty. -/
def normalize_document (document : String) : String :=
  if document = "" then ""
  else String.mk ((lowerChars document.toList).filter pyIsAlnum)

/-- `''.join(filter(str.isdigit, s))` as used on phone numbers. -/
def digitsOf (s : String) : String := String.mk (s.toList.filter pyIsDigit)

/-! ### Entity records (models `client.py`, `product.py`, `supplier.py`;
fields not read by the duplicate service are omitted; SQL NULL is the empty
string) -/

structure Client where
  id : Nat
  name : String
  document_number : String
  email : String
  phone : String
  status : String
deriving DecidableEq, Repr

structure Product where
  id : Nat
  code : String
  name : String
  description : String
  status : String
deriving DecidableEq, Repr

structure Supplier where
  id : Nat
  name : String
  document_number : String
  email : String
  contact_person : String
  status : String
deriving DecidableEq, Repr

/-! ### Entity similarity scorers -/

/-- The `scores` list built by `_calculate_client_similarity`: name always,
document / email / phone only when present on both sides. -/
def clientScores (c1 c2 : Client) : List ℚ :=
  let s0 : List ℚ := [calculate_similarity c1.name c2.name * (4/10)]
  let d1 := normalize_document c1.document_number
  let d2 := normalize_document c2.document_number
  let s1 := if d1 ≠ "" ∧ d2 ≠ "" then s0 ++ [(if d1 = d2 then (1 : ℚ) else 0) * (3/10)] else s0
  let s2 := if c1.email ≠ "" ∧ c2.email ≠ "" then
      s1 ++ [calculate_similarity c1.email c2.email * (2/10)] else s1
  if c1.phone ≠ "" ∧ c2.phone ≠ "" then
    s2 ++ [calculate_similarity (digitsOf c1.phone) (digitsOf c2.phone) * (1/10)]
  else s2

/-- `DuplicateDetectionService._calculate_client_similarity`:
`sum(scores) / len(scores) if scores else 0.0`. -/
def clientSimilarity (c1 c2 : Client) : ℚ :=
  let scores := clientScores c1 c2
  if scores = [] then 0 else scores.sum / (scores.length : ℚ)

/-- The `scores` list built by `_calculate_product_similarity`. -/
def productScores (p1 p2 : Product) : List ℚ :=
  let s0 : List ℚ :=
    if p1.code ≠ "" ∧ p2.code ≠ "" then
      [(if lowerChars p1.code.toList = lowerChars p2.code.toList then (1 : ℚ) else 0) * (4/10)]
    else []
  let s1 := s0 ++ [calculate_similarity p1.name p2.name * (4/10)]
  if p1.description ≠ "" ∧ p2.description ≠ "" then
    s1 ++ [calculate_similarity p1.description p2.description * (2/10)]
  else s1

/-- `DuplicateDetectionService._calculate_product_similarity`. -/
def productSimilarity (p1 p2 : Product) : ℚ :=
  let scores := productScores p1 p2
  if scores = [] then 0 else scores.sum / (scores.length : ℚ)

/-- The `scores` list built by `_calculate_supplier_similarity`. -/
def supplierScores (s1 s2 : Supplier) : List ℚ :=
  let t0 : List ℚ := [calculate_similarity s1.name s2.name * (4/10)]
  let d1 := normalize_document s1.document_number
  let d2 := normalize_document s2.document_number
  let t1 := if d1 ≠ "" ∧ d2 ≠ "" then t0 ++ [(if d1 = d2 then (1 : ℚ) else 0) * (3/10)] else t0
  let t2 := if s1.email ≠ "" ∧ s2.email ≠ "" then
      t1 ++ [calculate_similarity s1.email s2.email * (2/10)] else t1
  if s1.contact_person ≠ "" ∧ s2.contact_person ≠ "" then
    t2 ++ [calculate_similarity s1.contact_person s2.contact_person * (1/10)]
  else t2

/-- `DuplicateDetectionService._calculate_supplier_similarity`. -/
def supplierSimilarity (s1 s2 : Supplier) : ℚ :=
  let scores := supplierScores s1 s2
  if scores = [] then 0 else scores.sum / (scores.length : ℚ)

/-! ### Duplicate candidate records and store (`PotentialDuplicate` of
`audit.py`, over the `potential_duplicates` table of `database.py`).

The schema declares `id INTEGER PRIMARY KEY AUTOINCREMENT` and **no uniqueness
constraint over `(table_name, record_id_1, record_id_2)`** (database.py lines
118-130), so an `INSERT` of an already-stored pair succeeds and creates a
second row.  The store is the list of rows; `nextId` models the autoincrement
counter. -/

structure PotentialDuplicate where
  id : Option Nat
  table_name : String
  record_id_1 : Nat
  record_id_2 : Nat
  similarity_score : ℚ
  status : String
  reviewed_by : Option String
  reviewed_at : Option String
  created_at : Option String
deriving DecidableEq, Repr

/-- `PotentialDuplicate.save`: with `id = None` it INSERTs the five listed
columns (the row's `created_at` takes the DB default `now`, `reviewed_by` and
`reviewed_at` are NULL) and assigns `lastrowid`; otherwise it UPDATEs only
`status`, `reviewed_by` and `reviewed_at = CURRENT_TIMESTAMP` of the row with
the same id.  Returns (store', nextId', returned id). -/
def pdSave (store : List PotentialDuplicate) (nextId : Nat) (now : String)
    (d : PotentialDuplicate) : List PotentialDuplicate × Nat × Nat :=
  match d.id with
  | none =>
    (store ++ [{ id := some nextId, table_name := d.table_name,
                 record_id_1 := d.record_id_1, record_id_2 := d.record_id_2,
                 similarity_score := d.similarity_score, status := d.status,
                 reviewed_by := none, reviewed_at := none, created_at := some now }],
     nextId + 1, nextId)
  | some i =>
    (store.map (fun r =>
        if r.id = some i then
          { r with status := d.status, reviewed_by := d.reviewed_by, reviewed_at := some now }
        else r),
     nextId, i)

/-- `DuplicateDetectionService._duplicate_exists`: `COUNT(*) > 0` over rows of
the table whose id pair matches in either orientation (any status). -/
def duplicate_exists (store : List PotentialDuplicate) (table : String)
    (id1 id2 : Nat) : Bool :=
  store.any (fun r =>
    r.table_name == table &&
      ((r.record_id_1 == id1 && r.record_id_2 == id2) ||
       (r.record_id_1 == id2 && r.record_id_2 == id1)))

/-! ### Application state and entity repositories -/

structure MdmState where
  clients : List Client
  products : List Product
  suppliers : List Supplier
  duplicates : List PotentialDuplicate
  nextDupId : Nat
deriving DecidableEq, Repr

/-- `Client.get_all(status='active')` (the `ORDER BY name` clause only fixes
the enumeration order of the pairwise loop; none of the properties below
depend on it). -/
def activeClients (st : MdmState) : List Client :=
  st.clients.filter (fun c => c.status == "active")

def activeProducts (st : MdmState) : List Product :=
  st.products.filter (fun p => p.status == "active")

def activeSuppliers (st : MdmState) : List Supplier :=
  st.suppliers.filter (fun s => s.status == "active")

/-- `Client.get_by_id`: first row with the id, no status filter; `None` when
absent. -/
def findClient (cs : List Client) (i : Nat) : Option Client :=
  cs.find? (fun c => c.id == i)

def findProduct (ps : List Product) (i : Nat) : Option Product :=
  ps.find? (fun p => p.id == i)

def findSupplier (ss : List Supplier) (i : Nat) : Option Supplier :=
  ss.find? (fun s => s.id == i)

/-- `Client.delete(id, user)`: soft delete.  When the id resolves, the row's
status becomes `'deleted'` and `True` is returned; otherwise nothing changes
and `False` is returned.  (The audit-trail side entry is external to the
duplicate engine and not modelled.) -/
def clientDelete (cs : List Client) (i : Nat) : Bool × List Client :=
  if cs.any (fun c => c.id == i) then
    (true, cs.map (fun c => if c.id == i then { c with status := "deleted" } else c))
  else (false, cs)

def productDelete (ps : List Product) (i : Nat) : Bool × List Product :=
  if ps.any (fun p => p.id == i) then
    (true, ps.map (fun p => if p.id == i then { p with status := "deleted" } else p))
  else (false, ps)

def supplierDelete (ss : List Supplier) (i : Nat) : Bool × List Supplier :=
  if ss.any (fun s => s.id == i) then
    (true, ss.map (fun s => if s.id == i then { s with status := "deleted" } else s))
  else (false, ss)

/-! ### Detection orchestrator

`detect_client_duplicates` / `detect_product_duplicates` /
`detect_supplier_duplicates` are three verbatim copies of one loop shape; the
shared shape is embedded once and instantiated per table. -/

/-- The strict-upper-triangle pair enumeration
`for i, x in enumerate(l): for y in l[i+1:]`. -/
def upairs {α : Type} : List α → List (α × α)
  | [] => []
  | x :: xs => (xs.map fun y => (x, y)) ++ upairs xs

/-- The `PotentialDuplicate(...)` constructor call of the detection loop. -/
def pendingCandidate (table : String) (a b : Nat) (s : ℚ) : PotentialDuplicate :=
  { id := none, table_name := table, record_id_1 := a, record_id_2 := b,
    similarity_score := s, status := "pending", reviewed_by := none,
    reviewed_at := none, created_at := none }

/-- The body of the detection loop over the listed pairs: score each pair,
and for a score at or above the threshold whose pair is not already stored
(either orientation, any status), save a new `pending` candidate and collect
it (the collected object carries the assigned id and, like the Python object
after `save()`, no `created_at`).  Returns (created, store', nextId'). -/
def detectPairs {α : Type} (table : String) (sim : α → α → ℚ) (getId : α → Nat)
    (threshold : ℚ) (now : String) :
    List (α × α) → List PotentialDuplicate → Nat →
      List PotentialDuplicate × List PotentialDuplicate × Nat
  | [], store, n => ([], store, n)
  | (x, y) :: ps, store, n =>
    let s := sim x y
    if threshold ≤ s then
      if duplicate_exists store table (getId x) (getId y) then
        detectPairs table sim getId threshold now ps store n
      else
        let d := pendingCandidate table (getId x) (getId y) s
        let saved := pdSave store n now d
        let rest := detectPairs table sim getId threshold now ps saved.1 saved.2.1
        ({ d with id := some saved.2.2 } :: rest.1, rest.2.1, rest.2.2)
    else detectPairs table sim getId threshold now ps store n

/-- `DuplicateDetectionService.detect_client_duplicates(threshold)`:
returns the created candidates and the updated state. -/
def detect_client_duplicates (threshold : ℚ) (now : String) (st : MdmState) :
    List PotentialDuplicate × MdmState :=
  let r := detectPairs "clients" clientSimilarity Client.id threshold now
    (upairs (activeClients st)) st.duplicates st.nextDupId
  (r.1, { st with duplicates := r.2.1, nextDupId := r.2.2 })

/-- `DuplicateDetectionService.detect_product_duplicates(threshold)`. -/
def detect_product_duplicates (threshold : ℚ) (now : String) (st : MdmState) :
    List PotentialDuplicate × MdmState :=
  let r := detectPairs "products" productSimilarity Product.id threshold now
    (upairs (activeProducts st)) st.duplicates st.nextDupId
  (r.1, { st with duplicates := r.2.1, nextDupId := r.2.2 })

/-- `DuplicateDetectionService.detect_supplier_duplicates(threshold)`. -/
def detect_supplier_duplicates (threshold : ℚ) (now : String) (st : MdmState) :
    List PotentialDuplicate × MdmState :=
  let r := detectPairs "suppliers" supplierSimilarity Supplier.id threshold now
    (upairs (activeSuppliers st)) st.duplicates st.nextDupId
  (r.1, { st with duplicates := r.2.1, nextDupId := r.2.2 })

/-! ### Failure-injecting wrappers

The repository reads and writes go to SQLite and can raise.  An environment
records which of these calls raises during the run under consideration; the
embedded operations thread it explicitly. -/

inductive PyErr where
  | persistence : String → PyErr
deriving DecidableEq, Repr

/-- Which table loads raise during `run_all_duplicate_detection`. -/
structure RepoEnv where
  clientsError : Option PyErr
  productsError : Option PyErr
  suppliersError : Option PyErr
deriving DecidableEq, Repr

def detectClientsE (env : RepoEnv) (threshold : ℚ) (now : String) (st : MdmState) :
    Except PyErr (List PotentialDuplicate × MdmState) :=
  match env.clientsError with
  | some e => .error e
  | none => .ok (detect_client_duplicates threshold now st)

def detectProductsE (env : RepoEnv) (threshold : ℚ) (now : String) (st : MdmState) :
    Except PyErr (List PotentialDuplicate × MdmState) :=
  match env.productsError with
  | some e => .error e
  | none => .ok (detect_product_duplicates threshold now st)

def detectSuppliersE (env : RepoEnv) (threshold : ℚ) (now : String) (st : MdmState) :
    Except PyErr (List PotentialDuplicate × MdmState) :=
  match env.suppliersError with
  | some e => .error e
  | none => .ok (detect_supplier_duplicates threshold now st)

/-- `DuplicateDetectionService.run_all_duplicate_detection(threshold)`: run
the three detections in sequence, with no `try`/`except` around any of them,
and return the per-table counts.  An exception anywhere propagates. -/
def run_all_duplicate_detection (env : RepoEnv) (threshold : ℚ) (now : String)
    (st : MdmState) : Except PyErr ((Nat × Nat × Nat) × MdmState) :=
  match detectClientsE env threshold now st with
  | .error e => .error e
  | .ok (cd, st1) =>
    match detectProductsE env threshold now st1 with
    | .error e => .error e
    | .ok (pd, st2) =>
      match detectSuppliersE env threshold now st2 with
      | .error e => .error e
      | .ok (sd, st3) => .ok ((cd.length, pd.length, sd.length), st3)

/-! ### Review & merge workflow -/

inductive EntityRec where
  | client : Client → EntityRec
  | product : Product → EntityRec
  | supplier : Supplier → EntityRec
deriving DecidableEq, Repr

/-- `DuplicateDetectionService.get_duplicate_details`: dispatch on
`table_name`, look both record ids up with `get_by_id` (which returns `None`
for an unresolved id), and return the pair; `(None, None)` for an unknown
table.  The code path raises nothing, so the error side of the result type is
never used. -/
def get_duplicate_details (st : MdmState) (dup : PotentialDuplicate) :
    Except PyErr (Option EntityRec × Option EntityRec) :=
  if dup.table_name = "clients" then
    .ok ((findClient st.clients dup.record_id_1).map .client,
         (findClient st.clients dup.record_id_2).map .client)
  else if dup.table_name = "products" then
    .ok ((findProduct st.products dup.record_id_1).map .product,
         (findProduct st.products dup.record_id_2).map .product)
  else if dup.table_name = "suppliers" then
    .ok ((findSupplier st.suppliers dup.record_id_1).map .supplier,
         (findSupplier st.suppliers dup.record_id_2).map .supplier)
  else .ok (none, none)

/-- Which SQLite writes raise during a merge/dismiss call. -/
structure DbEnv where
  deleteRaises : Bool
  saveRaises : Bool
deriving DecidableEq, Repr

/-- `DuplicateDetectionService.merge_records(duplicate, keep_record_id, user)`.
The whole body sits in `try: ... except Exception: print(...); return False`,
so no error ever escapes: the result is always `.ok`.  The record deleted is
`record_id_2` when `keep == record_id_1` and `record_id_1` otherwise (there is
no check that `keep` is one of the pair).  When the delete raises, nothing has
been written; when the later `duplicate.save()` raises, the soft delete has
already been committed. -/
def merge_records (env : DbEnv) (now : String) (st : MdmState)
    (dup : PotentialDuplicate) (keep : Nat) (user : String) :
    Except PyErr (Bool × MdmState) :=
  let attempt : Option MdmState :=
    if dup.table_name = "clients" then
      if env.deleteRaises then none
      else
        let deleteId := if keep = dup.record_id_1 then dup.record_id_2 else dup.record_id_1
        some { st with clients := (clientDelete st.clients deleteId).2 }
    else if dup.table_name = "products" then
      if env.deleteRaises then none
      else
        let deleteId := if keep = dup.record_id_1 then dup.record_id_2 else dup.record_id_1
        some { st with products := (productDelete st.products deleteId).2 }
    else if dup.table_name = "suppliers" then
      if env.deleteRaises then none
      else
        let deleteId := if keep = dup.record_id_1 then dup.record_id_2 else dup.record_id_1
        some { st with suppliers := (supplierDelete st.suppliers deleteId).2 }
    else some st
  match attempt with
  | none => .ok (false, st)
  | some st1 =>
    if env.saveRaises then .ok (false, st1)
    else
      let d := { dup with status := "merged", reviewed_by := some user }
      let saved := pdSave st1.duplicates st1.nextDupId now d
      .ok (true, { st1 with duplicates := saved.1, nextDupId := saved.2.1 })

/-- `DuplicateDetectionService.mark_as_not_duplicate(duplicate, user)`: set
status/reviewer and save, catching every exception and returning a boolean. -/
def mark_as_not_duplicate (env : DbEnv) (now : String) (st : MdmState)
    (dup : PotentialDuplicate) (user : String) :
    Except PyErr (Bool × MdmState) :=
  if env.saveRaises then .ok (false, st)
  else
    let d := { dup with status := "not_duplicate", reviewed_by := some user }
    let saved := pdSave st.duplicates st.nextDupId now d
    .ok (true, { st with duplicates := saved.1, nextDupId := saved.2.1 })

/-- The state component of a workflow call's result (the calls above never
return `.error`, so the default is unreachable). -/
def resultState (r : Except PyErr (Bool × MdmState)) (dflt : MdmState) : MdmState :=
  match r with
  | .ok (_, s) => s
  | .error _ => dflt

/-- The frame of a stored candidate row: the columns the UPDATE branch of
`PotentialDuplicate.save` does not touch. -/
def dupFrame (r : PotentialDuplicate) : String × Nat × Nat × ℚ × Option String :=
  (r.table_name, r.record_id_1, r.record_id_2, r.similarity_score, r.created_at)

/-- `True` iff the call returned normally (no exception escaped). -/
def exceptIsOk {α : Type} : Except PyErr α → Bool
  | .ok _ => true
  | .error _ => false

instance {ε α : Type} [DecidableEq ε] [DecidableEq α] : DecidableEq (Except ε α) :=
  fun x y =>
    match x, y with
    | .ok a, .ok b =>
      if h : a = b then .isTrue (by rw [h]) else .isFalse (by intro hh; cases hh; exact h rfl)
    | .ok _, .error _ => .isFalse (by intro hh; cases hh)
    | .error _, .ok _ => .isFalse (by intro hh; cases hh)
    | .error e, .error f =>
      if h : e = f then .isTrue (by rw [h]) else .isFalse (by intro hh; cases hh; exact h rfl)

/-- Number of stored rows covering the unordered pair `(a, b)` of `table`
(same row predicate as `_duplicate_exists`). -/
def pairCount (store : List PotentialDuplicate) (table : String) (a b : Nat) : Nat :=
  (store.filter (fun r =>
    r.table_name == table &&
      ((r.record_id_1 == a && r.record_id_2 == b) ||
       (r.record_id_1 == b && r.record_id_2 == a)))).length

/-- Two candidate rows reference the same unordered pair of the same table. -/
def samePair (r r' : PotentialDuplicate) : Bool :=
  r.table_name == r'.table_name &&
    ((r.record_id_1 == r'.record_id_1 && r.record_id_2 == r'.record_id_2) ||
     (r.record_id_1 == r'.record_id_2 && r.record_id_2 == r'.record_id_1))

/-- The store-level uniqueness invariant of §3 of the design: no two stored
rows reference the same unordered pair. -/
def pairwiseDistinct : List PotentialDuplicate → Bool
  | [] => true
  | r :: rs => rs.all (fun r' => !samePair r r') && pairwiseDistinct rs

/-! ### Concrete fixtures used by the per-claim theorems -/

/-- A client with all four weighted fields present and non-empty. -/
def rC1 : Client :=
  { id := 1, name := "João Silva", document_number := "123.456.789-01",
    email := "joao@x.com", phone := "(11) 99999-0000", status := "active" }

def c1C2 : Client :=
  { id := 1, name := "Maria Souza", document_number := "111.222.333-44",
    email := "", phone := "", status := "active" }

def c2C2 : Client :=
  { id := 2, name := "Maria Sousa", document_number := "111.222.333-44",
    email := "", phone := "", status := "active" }

def dupC2 : PotentialDuplicate :=
  { id := some 10, table_name := "clients", record_id_1 := 1, record_id_2 := 2,
    similarity_score := mkRat 9 10, status := "pending",
    reviewed_by := none, reviewed_at := none, created_at := some "t0" }

def stC2 : MdmState :=
  { clients := [c1C2, c2C2], products := [], suppliers := [],
    duplicates := [dupC2], nextDupId := 11 }

/-- `dupC2` as `merge_records` rewrites it. -/
def dupC2Merged : PotentialDuplicate :=
  { dupC2 with status := "merged", reviewed_by := some "alice", reviewed_at := some "t1" }

/-- The state `merge_records` is observed to leave behind on `stC2` with
`keep_record_id = 3`: record 1 soft-deleted, candidate marked merged. -/
def stC2After : MdmState :=
  { clients := [{ c1C2 with status := "deleted" }, c2C2],
    products := [], suppliers := [],
    duplicates := [dupC2Merged],
    nextDupId := 11 }

def dupC3 : PotentialDuplicate :=
  { id := some 10, table_name := "clients", record_id_1 := 1, record_id_2 := 2,
    similarity_score := mkRat 9 10, status := "pending",
    reviewed_by := none, reviewed_at := none, created_at := some "t0" }

def stC3 : MdmState :=
  { clients := [c1C2, c2C2], products := [], suppliers := [],
    duplicates := [dupC3], nextDupId := 11 }

/-- The state left behind when the delete commits but the candidate save
raises: record 2 soft-deleted, candidate row untouched (still pending). -/
def stC3After : MdmState :=
  { clients := [c1C2, { c2C2 with status := "deleted" }],
    products := [], suppliers := [],
    duplicates := [dupC3], nextDupId := 11 }

def cAC4 : Client :=
  { id := 1, name := "João Silva", document_number := "123.456.789-01",
    email := "", phone := "", status := "active" }

def cBC4 : Client :=
  { id := 2, name := "Joao Silva", document_number := "12345678901",
    email := "", phone := "", status := "active" }

def stC4 : MdmState :=
  { clients := [cAC4, cBC4], products := [], suppliers := [],
    duplicates := [], nextDupId := 1 }

def c2C5 : Client :=
  { id := 2, name := "Ana Lima", document_number := "555.666.777-88",
    email := "", phone := "", status := "active" }

/-- A candidate whose first record id (1) resolves to no stored client. -/
def dupC5 : PotentialDuplicate :=
  { id := some 4, table_name := "clients", record_id_1 := 1, record_id_2 := 2,
    similarity_score := mkRat 9 10, status := "pending",
    reviewed_by := none, reviewed_at := none, created_at := some "t0" }

def stC5 : MdmState :=
  { clients := [c2C5], products := [], suppliers := [],
    duplicates := [dupC5], nextDupId := 5 }

def envC6 : RepoEnv :=
  { clientsError := some (.persistence "db unavailable"),
    productsError := none, suppliersError := none }

def s1C6 : Supplier :=
  { id := 1, name := "Acme Ltda", document_number := "", email := "",
    contact_person := "", status := "active" }

def s2C6 : Supplier :=
  { id := 2, name := "Acme Ltda", document_number := "", email := "",
    contact_person := "", status := "active" }

def stC6 : MdmState :=
  { clients := [], products := [], suppliers := [s1C6, s2C6],
    duplicates := [], nextDupId := 1 }

def cAC7 : Client :=
  { id := 1, name := "aa", document_number := "", email := "", phone := "",
    status := "active" }

def cBC7 : Client :=
  { id := 2, name := "aa", document_number := "", email := "", phone := "",
    status := "active" }

def stC7 : MdmState :=
  { clients := [cAC7, cBC7], products := [], suppliers := [],
    duplicates := [], nextDupId := 0 }

/-- The state after a first detection run over `stC7` at threshold 2/5. -/
def st2C7 : MdmState := (detect_client_duplicates (mkRat 2 5) "t1" stC7).2

def rowC8 : PotentialDuplicate :=
  { id := some 1, table_name := "clients", record_id_1 := 1, record_id_2 := 2,
    similarity_score := mkRat 9 10, status := "pending",
    reviewed_by := none, reviewed_at := none, created_at := some "t0" }

/-- A fresh candidate for the pair `rowC8` already covers. -/
def freshC8 : PotentialDuplicate :=
  { id := none, table_name := "clients", record_id_1 := 1, record_id_2 := 2,
    similarity_score := mkRat 9 10, status := "pending",
    reviewed_by := none, reviewed_at := none, created_at := none }

def cTC9 : Client :=
  { id := 1, name := "tide", document_number := "", email := "", phone := "",
    status := "active" }

def cDC9 : Client :=
  { id := 2, name := "diet", document_number := "", email := "", phone := "",
    status := "active" }

/-- A pair of names on which the difflib ratio happens to be symmetric. -/
def cXC9 : Client :=
  { id := 3, name := "ab", document_number := "", email := "", phone := "",
    status := "active" }

def cYC9 : Client :=
  { id := 4, name := "ba", document_number := "", email := "", phone := "",
    status := "active" }

def dupC10 : PotentialDuplicate :=
  { id := some 7, table_name := "clients", record_id_1 := 3, record_id_2 := 4,
    similarity_score := mkRat 4 5, status := "pending",
    reviewed_by := none, reviewed_at := none, created_at := some "t0" }

def stC10 : MdmState :=
  { clients := [], products := [], suppliers := [],
    duplicates := [dupC10], nextDupId := 8 }

end Mdm

namespace Mdm

/-- Claim C1.  Refuted evaluation: for the client `rC1`, on which every
weighted field (name, document, email, phone) is present and non-empty, the
client scorer applied to the pair `(rC1, rC1)` returns 1/4, not 1.0: the code
divides the weighted sum (0.4+0.3+0.2+0.1 = 1.0) by the number of present
fields (4) instead of by the total weight, so the score of a record against
itself is 0.25. -/
theorem C1_self_similarity_not_one :
    (rC1.name ≠ "" ∧ normalize_document rC1.document_number ≠ "" ∧
      rC1.email ≠ "" ∧ rC1.phone ≠ "") ∧
    clientSimilarity rC1 rC1 = mkRat 1 4 ∧ (mkRat 1 4 : ℚ) ≠ 1 := by
  refine ⟨by decide, by decide, by decide⟩

/-- Claim C2.  Refuted evaluation: merging `dupC2` (pair of record ids 1 and
2) with `keep_record_id = 3`, which equals neither side, raises no error and
does change state: the branch `record_id_2 if keep == record_id_1 else
record_id_1` silently soft-deletes record 1 and marks the candidate `merged`
(reviewer and review time set). -/
theorem C2_merge_foreign_keep_mutates_state :
    ((3 : Nat) ≠ dupC2.record_id_1 ∧ (3 : Nat) ≠ dupC2.record_id_2) ∧
    merge_records ⟨false, false⟩ "t1" stC2 dupC2 3 "alice" = .ok (true, stC2After) ∧
    (stC2After.clients.map Client.status = ["deleted", "active"] ∧
      stC2After.duplicates.map PotentialDuplicate.status = ["merged"]) := by
  refine ⟨by decide, by decide, by decide⟩

/-- Claim C3, counterexample.  With the repository delete raising, `merge`
returns `ok False` — the error is caught and swallowed, not propagated (the
claim asserts an error result).  And with the delete succeeding but the
candidate save raising, the losing record (id 2) ends up soft-deleted while
the stored candidate is still `pending` — the atomicity invariant the claim
asserts is violated. -/
theorem C3_counterexample :
    merge_records ⟨true, false⟩ "t1" stC3 dupC3 1 "u" = .ok (false, stC3) ∧
    exceptIsOk (merge_records ⟨true, false⟩ "t1" stC3 dupC3 1 "u") = true ∧
    merge_records ⟨false, true⟩ "t1" stC3 dupC3 1 "u" = .ok (false, stC3After) ∧
    (stC3After.clients.map Client.status = ["active", "deleted"] ∧
      stC3After.duplicates.map PotentialDuplicate.status = ["pending"]) := by
  refine ⟨by decide, by decide, by decide, by decide⟩

/-- Claim C4.  Refuted evaluation: for client A (João Silva /
123.456.789-01) and client B (Joao Silva / 12345678901) the scorer returns
(0.4·0.9 + 0.3·1.0)/2 = 0.33 — the division by the number of present fields
(2) instead of the total present weight (0.7) drops the score below the 0.8
default threshold, and detection over the two active records creates no
candidate. -/
theorem C4_joao_pair_below_threshold :
    clientSimilarity cAC4 cBC4 = mkRat 33 100 ∧
    ¬ (mkRat 8 10 ≤ mkRat 33 100) ∧
    detect_client_duplicates (mkRat 8 10) "t" stC4 = ([], stC4) := by
  refine ⟨by decide, by decide, by decide⟩

/-- Claim C5, counterexample.  For candidate `dupC5` whose record id 1 does
not resolve in the clients table, `get_duplicate_details` returns normally
with `None` in place of the missing record instead of failing with a
`NotFoundError`. -/
theorem C5_counterexample :
    exceptIsOk (get_duplicate_details stC5 dupC5) = true ∧
    get_duplicate_details stC5 dupC5 = .ok (none, some (.client c2C5)) := by
  refine ⟨by decide, by decide⟩

/-- Claim C6, counterexample.  When loading the clients table raises a
persistence error, `run_all_duplicate_detection` propagates the error: product
and supplier detection never run and no per-table counts are reported, even
though supplier detection alone (same state, same threshold) would have
created one candidate. -/
theorem C6_counterexample :
    run_all_duplicate_detection envC6 (mkRat 3 10) "t" stC6 =
      .error (.persistence "db unavailable") ∧
    (detect_supplier_duplicates (mkRat 3 10) "t" stC6).1.length = 1 := by
  refine ⟨by decide, by decide⟩

/-- Claim C8, counterexample.  The `potential_duplicates` schema has no
uniqueness constraint on `(table_name, record_id_1, record_id_2)`: inserting a
candidate for the pair (clients, 1, 2) that `rowC8` already covers succeeds
silently (the save returns a fresh rowid) and leaves two stored rows for the
same unordered pair — no conflict is reported by the store. -/
theorem C8_counterexample :
    pdSave [rowC8] 2 "t1" freshC8 =
      ([rowC8, { freshC8 with id := some 2, created_at := some "t1" }], 3, 2) ∧
    pairCount [rowC8, { freshC8 with id := some 2, created_at := some "t1" }] "clients" 1 2 = 2 := by
  refine ⟨by decide, by decide⟩

/-- Claim C9, counterexample.  The text-similarity primitive is not
symmetric: difflib's greedy matching gives ratio 1/4 for ("tide", "diet") but
1/2 for ("diet", "tide"), and consequently the client scorer is asymmetric on
two clients carrying those names (1/10 versus 1/5). -/
theorem C9_counterexample :
    calculate_similarity "tide" "diet" = mkRat 1 4 ∧
    calculate_similarity "diet" "tide" = mkRat 1 2 ∧
    (mkRat 1 4 : ℚ) ≠ mkRat 1 2 ∧
    clientSimilarity cTC9 cDC9 = mkRat 1 10 ∧
    clientSimilarity cDC9 cTC9 = mkRat 1 5 ∧
    (mkRat 1 10 : ℚ) ≠ mkRat 1 5 := by
  refine ⟨by decide, by decide, by decide, by decide, by decide, by decide⟩

end Mdm

namespace Mdm

/-- Claim C3, amended behaviour.  For a clients-table candidate: (a) when the
repository soft-delete raises, `merge_records` catches the exception and
returns `ok False` — the error is not propagated — and the state (including
the still-`pending` candidate) is completely unchanged; (b) when the delete
succeeds but the candidate save raises, `merge_records` returns `ok False`
with the losing record soft-deleted while the stored candidates are untouched
(the candidate stays `pending`), so the two-sided atomicity invariant of the
original claim does not hold. -/
theorem C3_merge_failure_swallowed (b : Bool) (now user : String) (st : MdmState)
    (dup : PotentialDuplicate) (keep : Nat) (h : dup.table_name = "clients") :
    merge_records ⟨true, b⟩ now st dup keep user = .ok (false, st) ∧
    merge_records ⟨false, true⟩ now st dup keep user =
      .ok (false, { st with clients := (clientDelete st.clients
        (if keep = dup.record_id_1 then dup.record_id_2 else dup.record_id_1)).2 }) ∧
    ({ st with clients := (clientDelete st.clients
        (if keep = dup.record_id_1 then dup.record_id_2 else dup.record_id_1)).2 }).duplicates
      = st.duplicates := by
  refine ⟨?_, ?_, rfl⟩ <;> simp [merge_records, h]

/-- Witness for C3: the amended behaviour at the concrete fixture. -/
theorem C3_merge_failure_swallowed_witness :
    merge_records ⟨true, false⟩ "tw" stC3 dupC3 1 "u" = .ok (false, stC3) ∧
    merge_records ⟨false, true⟩ "tw" stC3 dupC3 1 "u" =
      .ok (false, { stC3 with clients := (clientDelete stC3.clients
        (if 1 = dupC3.record_id_1 then dupC3.record_id_2 else dupC3.record_id_1)).2 }) ∧
    ({ stC3 with clients := (clientDelete stC3.clients
        (if 1 = dupC3.record_id_1 then dupC3.record_id_2 else dupC3.record_id_1)).2 }).duplicates
      = stC3.duplicates :=
  C3_merge_failure_swallowed false "tw" "u" stC3 dupC3 1 rfl

/-- Claim C5, amended behaviour.  `get_duplicate_details` never fails: every
call returns normally, and for a clients-table candidate it returns the pair
of `get_by_id` lookups, with `None` standing for a record id that no longer
resolves — the caller has to check for `None`; no `NotFoundError` exists in
this code base. -/
theorem C5_details_never_error (st : MdmState) (dup : PotentialDuplicate) :
    exceptIsOk (get_duplicate_details st dup) = true ∧
    (dup.table_name = "clients" →
      get_duplicate_details st dup =
        .ok ((findClient st.clients dup.record_id_1).map .client,
             (findClient st.clients dup.record_id_2).map .client)) := by
  constructor
  · unfold get_duplicate_details
    split
    · rfl
    · split
      · rfl
      · split
        · rfl
        · rfl
  · intro h
    unfold get_duplicate_details
    rw [if_pos h]

/-- Witness for C5: the amended behaviour at the concrete fixture (record id
1 of `dupC5` resolves to nothing). -/
theorem C5_details_never_error_witness :
    exceptIsOk (get_duplicate_details stC5 dupC5) = true ∧
    get_duplicate_details stC5 dupC5 =
      .ok ((findClient stC5.clients dupC5.record_id_1).map .client,
           (findClient stC5.clients dupC5.record_id_2).map .client) :=
  ⟨(C5_details_never_error stC5 dupC5).1, (C5_details_never_error stC5 dupC5).2 rfl⟩

/-- Claim C6, amended behaviour.  `run_all_duplicate_detection` runs the three
table detections strictly in sequence with no isolation: when nothing raises
it returns the three counts of newly created candidates, and when the clients
load raises the error propagates out of the whole call — the remaining tables
are not attempted and no partial per-table results are reported. -/
theorem C6_runAll_propagates (env : RepoEnv) (t : ℚ) (now : String) (st : MdmState) :
    (env.clientsError = none → env.productsError = none → env.suppliersError = none →
      run_all_duplicate_detection env t now st =
        .ok (((detect_client_duplicates t now st).1.length,
              (detect_product_duplicates t now (detect_client_duplicates t now st).2).1.length,
              (detect_supplier_duplicates t now
                (detect_product_duplicates t now (detect_client_duplicates t now st).2).2).1.length),
             (detect_supplier_duplicates t now
               (detect_product_duplicates t now (detect_client_duplicates t now st).2).2).2)) ∧
    (∀ e, env.clientsError = some e →
      run_all_duplicate_detection env t now st = .error e) := by
  constructor
  · intro h1 h2 h3
    unfold run_all_duplicate_detection detectClientsE detectProductsE detectSuppliersE
    rw [h1, h2, h3]
  · intro e he
    unfold run_all_duplicate_detection detectClientsE
    rw [he]

/-- Witness for C6: both amended behaviours at concrete fixtures. -/
theorem C6_runAll_propagates_witness :
    run_all_duplicate_detection ⟨none, none, none⟩ (mkRat 3 10) "t" stC6 =
      .ok (((detect_client_duplicates (mkRat 3 10) "t" stC6).1.length,
            (detect_product_duplicates (mkRat 3 10) "t"
              (detect_client_duplicates (mkRat 3 10) "t" stC6).2).1.length,
            (detect_supplier_duplicates (mkRat 3 10) "t"
              (detect_product_duplicates (mkRat 3 10) "t"
                (detect_client_duplicates (mkRat 3 10) "t" stC6).2).2).1.length),
           (detect_supplier_duplicates (mkRat 3 10) "t"
             (detect_product_duplicates (mkRat 3 10) "t"
               (detect_client_duplicates (mkRat 3 10) "t" stC6).2).2).2) ∧
    run_all_duplicate_detection envC6 (mkRat 3 10) "t" stC6 =
      .error (.persistence "db unavailable") :=
  ⟨(C6_runAll_propagates ⟨none, none, none⟩ (mkRat 3 10) "t" stC6).1 rfl rfl rfl,
   (C6_runAll_propagates envC6 (mkRat 3 10) "t" stC6).2 _ rfl⟩

end Mdm

namespace Mdm

/-- An exact-match component is insensitive to the order of comparison. -/
theorem ite_eq_swap (a b : String) (x : ℚ) :
    (if a = b then x else 0) = (if b = a then x else 0) := by
  by_cases h : a = b
  · rw [if_pos h, if_pos h.symm]
  · rw [if_neg h, if_neg (fun hh => h hh.symm)]

/-- Congruence for one conditional append step of a scorer's `scores` list. -/
theorem append_ite_congr {c1 c2 : Prop} [Decidable c1] [Decidable c2] (hc : c1 ↔ c2)
    {l1 l2 : List ℚ} {x y : ℚ} (hl : l1 = l2) (hx : x = y) :
    (if c1 then l1 ++ [x] else l1) = (if c2 then l2 ++ [y] else l2) := by
  subst hl; subst hx
  by_cases h : c1
  · rw [if_pos h, if_pos (hc.mp h)]
  · rw [if_neg h, if_neg (fun hh => h (hc.mpr hh))]

/-- Claim C9, amended behaviour.  The client scorer is symmetric whenever the
text-similarity primitive is symmetric on the three text-compared field values
of the pair (the document component, an exact match of normalized strings, is
always symmetric); the primitive itself, and hence the scorer, is not
symmetric in general, as the tide/diet counterexample shows. -/
theorem C9_scorer_symmetric_given_primitive (c1 c2 : Client)
    (hname : calculate_similarity c1.name c2.name = calculate_similarity c2.name c1.name)
    (hemail : calculate_similarity c1.email c2.email = calculate_similarity c2.email c1.email)
    (hphone : calculate_similarity (digitsOf c1.phone) (digitsOf c2.phone)
      = calculate_similarity (digitsOf c2.phone) (digitsOf c1.phone)) :
    clientSimilarity c1 c2 = clientSimilarity c2 c1 := by
  have hs : clientScores c1 c2 = clientScores c2 c1 := by
    simp only [clientScores]
    exact append_ite_congr and_comm
      (append_ite_congr and_comm
        (append_ite_congr and_comm (by rw [hname]) (by rw [ite_eq_swap]))
        (by rw [hemail]))
      (by rw [hphone])
  simp only [clientSimilarity, hs]

/-- Witness for C9: the conditional symmetry at a concrete pair of distinct
clients whose name pair the primitive happens to treat symmetrically. -/
theorem C9_scorer_symmetric_given_primitive_witness :
    clientSimilarity cXC9 cYC9 = clientSimilarity cYC9 cXC9 :=
  C9_scorer_symmetric_given_primitive cXC9 cYC9 (by decide) (by decide) (by decide)

/-- One row of the UPDATE of `PotentialDuplicate.save` keeps the frame. -/
theorem dupFrame_update (d : PotentialDuplicate) (now : String) (i : Nat)
    (r : PotentialDuplicate) :
    dupFrame (if r.id = some i then
        { r with status := d.status, reviewed_by := d.reviewed_by, reviewed_at := some now }
      else r) = dupFrame r := by
  by_cases h : r.id = some i
  · rw [if_pos h]; rfl
  · rw [if_neg h]

/-- The UPDATE branch of `PotentialDuplicate.save` keeps every row's frame. -/
theorem pdSave_update_frame (store : List PotentialDuplicate) (n : Nat) (now : String)
    (d : PotentialDuplicate) (i : Nat) (h : d.id = some i) :
    ((pdSave store n now d).1).map dupFrame = store.map dupFrame := by
  unfold pdSave
  rw [h]
  simp only [List.map_map]
  induction store with
  | nil => rfl
  | cons r rs ih =>
    simp only [List.map_cons, ih, List.cons.injEq, and_true]
    exact dupFrame_update d now i r

/-- Claim C10.  Resolution writes touch only `status`, `reviewed_by` and
`reviewed_at`: for a candidate whose id is assigned (as in every merge or
dismiss of a stored candidate), the save call, `mark_as_not_duplicate`, and
`merge_records` — whatever their outcome — leave every stored row's
`table_name`, `record_id_1`, `record_id_2`, `similarity_score` and
`created_at` unchanged. -/
theorem C10_resolution_preserves_frame :
    (∀ (store : List PotentialDuplicate) (n : Nat) (now : String)
        (d : PotentialDuplicate) (i : Nat), d.id = some i →
      ((pdSave store n now d).1).map dupFrame = store.map dupFrame) ∧
    (∀ (env : DbEnv) (now : String) (st : MdmState) (dup : PotentialDuplicate)
        (user : String) (i : Nat), dup.id = some i →
      (resultState (mark_as_not_duplicate env now st dup user) st).duplicates.map dupFrame
        = st.duplicates.map dupFrame) ∧
    (∀ (env : DbEnv) (now : String) (st : MdmState) (dup : PotentialDuplicate)
        (keep : Nat) (user : String) (i : Nat), dup.id = some i →
      (resultState (merge_records env now st dup keep user) st).duplicates.map dupFrame
        = st.duplicates.map dupFrame) := by
  refine ⟨pdSave_update_frame, ?_, ?_⟩
  · intro env now st dup user i h
    unfold mark_as_not_duplicate resultState
    by_cases hs : env.saveRaises = true
    · rw [if_pos hs]
    · rw [if_neg hs]
      exact pdSave_update_frame st.duplicates st.nextDupId now _ i h
  · intro env now st dup keep user i h
    unfold merge_records resultState
    by_cases h1 : dup.table_name = "clients" <;>
      by_cases h2 : dup.table_name = "products" <;>
        by_cases h3 : dup.table_name = "suppliers" <;>
          by_cases hd : env.deleteRaises = true <;>
            by_cases hs : env.saveRaises = true <;>
              simp only [h1, h2, h3, hd, hs, if_true, if_false, if_pos, if_neg,
                not_false_iff, Bool.not_eq_true] <;>
      first
        | rfl
        | exact pdSave_update_frame _ _ now _ i h

/-- Witness for C10: the three frame-preservation statements at concrete
inputs. -/
theorem C10_resolution_preserves_frame_witness :
    (((pdSave stC10.duplicates stC10.nextDupId "t2" dupC10).1).map dupFrame
        = stC10.duplicates.map dupFrame) ∧
    ((resultState (mark_as_not_duplicate ⟨false, false⟩ "t2" stC10 dupC10 "bob") stC10).duplicates.map dupFrame
        = stC10.duplicates.map dupFrame) ∧
    ((resultState (merge_records ⟨false, false⟩ "t2" stC10 dupC10 3 "bob") stC10).duplicates.map dupFrame
        = stC10.duplicates.map dupFrame) :=
  ⟨C10_resolution_preserves_frame.1 stC10.duplicates stC10.nextDupId "t2" dupC10 7 rfl,
   C10_resolution_preserves_frame.2.1 ⟨false, false⟩ "t2" stC10 dupC10 "bob" 7 rfl,
   C10_resolution_preserves_frame.2.2 ⟨false, false⟩ "t2" stC10 dupC10 3 "bob" 7 rfl⟩

end Mdm

namespace Mdm

theorem detectPairs_cons_low {α : Type} {table : String} {sim : α → α → ℚ}
    {getId : α → Nat} {t : ℚ} {now : String} {x y : α} {ps : List (α × α)}
    {store : List PotentialDuplicate} {n : Nat} (ht : ¬ t ≤ sim x y) :
    detectPairs table sim getId t now ((x, y) :: ps) store n =
      detectPairs table sim getId t now ps store n := by
  simp only [detectPairs]
  rw [if_neg ht]

theorem detectPairs_cons_dup {α : Type} {table : String} {sim : α → α → ℚ}
    {getId : α → Nat} {t : ℚ} {now : String} {x y : α} {ps : List (α × α)}
    {store : List PotentialDuplicate} {n : Nat} (ht : t ≤ sim x y)
    (hex : duplicate_exists store table (getId x) (getId y) = true) :
    detectPairs table sim getId t now ((x, y) :: ps) store n =
      detectPairs table sim getId t now ps store n := by
  simp only [detectPairs]
  rw [if_pos ht, if_pos hex]

theorem detectPairs_cons_new {α : Type} {table : String} {sim : α → α → ℚ}
    {getId : α → Nat} {t : ℚ} {now : String} {x y : α} {ps : List (α × α)}
    {store : List PotentialDuplicate} {n : Nat} (ht : t ≤ sim x y)
    (hex : duplicate_exists store table (getId x) (getId y) = false) :
    detectPairs table sim getId t now ((x, y) :: ps) store n =
      ({ pendingCandidate table (getId x) (getId y) (sim x y) with id := some n } ::
          (detectPairs table sim getId t now ps
            (store ++ [{ pendingCandidate table (getId x) (getId y) (sim x y) with
                         id := some n, created_at := some now }]) (n + 1)).1,
        (detectPairs table sim getId t now ps
          (store ++ [{ pendingCandidate table (getId x) (getId y) (sim x y) with
                       id := some n, created_at := some now }]) (n + 1)).2) := by
  have hb : ¬ (duplicate_exists store table (getId x) (getId y) = true) := by simp [hex]
  simp only [detectPairs]
  rw [if_pos ht, if_neg hb]
  rfl

/-- The detection loop only appends to the store. -/
theorem detectPairs_extends {α : Type} (table : String) (sim : α → α → ℚ)
    (getId : α → Nat) (t : ℚ) (now : String) :
    ∀ (ps : List (α × α)) (store : List PotentialDuplicate) (n : Nat),
      ∃ ext, (detectPairs table sim getId t now ps store n).2.1 = store ++ ext := by
  intro ps
  induction ps with
  | nil =>
    intro store n
    exact ⟨[], by simp [detectPairs]⟩
  | cons p ps ih =>
    obtain ⟨x, y⟩ := p
    intro store n
    by_cases ht : t ≤ sim x y
    · cases hex : duplicate_exists store table (getId x) (getId y) with
      | true =>
        rw [detectPairs_cons_dup ht hex]
        exact ih store n
      | false =>
        rw [detectPairs_cons_new ht hex]
        obtain ⟨ext, hext⟩ := ih
          (store ++ [{ pendingCandidate table (getId x) (getId y) (sim x y) with
                       id := some n, created_at := some now }]) (n + 1)
        refine ⟨{ pendingCandidate table (getId x) (getId y) (sim x y) with
                  id := some n, created_at := some now } :: ext, ?_⟩
        dsimp only
        rw [hext, List.append_assoc]
        rfl
    · rw [detectPairs_cons_low ht]
      exact ih store n

theorem duplicate_exists_append_left (store ext : List PotentialDuplicate)
    (tb : String) (a b : Nat) (h : duplicate_exists store tb a b = true) :
    duplicate_exists (store ++ ext) tb a b = true := by
  unfold duplicate_exists at h ⊢
  rw [List.any_append, h]
  rfl

/-- A pair stored before the loop is still stored after it. -/
theorem detectPairs_exists_mono {α : Type} (table : String) (sim : α → α → ℚ)
    (getId : α → Nat) (t : ℚ) (now : String) (ps : List (α × α))
    (store : List PotentialDuplicate) (n : Nat) (tb : String) (a b : Nat)
    (h : duplicate_exists store tb a b = true) :
    duplicate_exists ((detectPairs table sim getId t now ps store n).2.1) tb a b = true := by
  obtain ⟨ext, hext⟩ := detectPairs_extends table sim getId t now ps store n
  rw [hext]
  exact duplicate_exists_append_left store ext tb a b h

theorem duplicate_exists_insert (store : List PotentialDuplicate) (tb : String)
    (a b : Nat) (s : ℚ) (n : Nat) (now : String) :
    duplicate_exists
      (store ++ [{ pendingCandidate tb a b s with id := some n, created_at := some now }])
      tb a b = true := by
  unfold duplicate_exists
  rw [List.any_append]
  simp [pendingCandidate]

/-- After the loop, every scoring pair of the list is stored. -/
theorem detectPairs_covers {α : Type} (table : String) (sim : α → α → ℚ)
    (getId : α → Nat) (t : ℚ) (now : String) :
    ∀ (ps : List (α × α)) (store : List PotentialDuplicate) (n : Nat) (x y : α),
      (x, y) ∈ ps → t ≤ sim x y →
      duplicate_exists ((detectPairs table sim getId t now ps store n).2.1)
        table (getId x) (getId y) = true := by
  intro ps
  induction ps with
  | nil =>
    intro store n x y hmem _
    exact absurd hmem (List.not_mem_nil _)
  | cons p ps ih =>
    obtain ⟨x0, y0⟩ := p
    intro store n x y hmem ht
    rcases List.mem_cons.mp hmem with heq | htail
    · injection heq with hx hy
      subst hx; subst hy
      cases hex : duplicate_exists store table (getId x) (getId y) with
      | true =>
        rw [detectPairs_cons_dup ht hex]
        exact detectPairs_exists_mono table sim getId t now ps store n _ _ _ hex
      | false =>
        rw [detectPairs_cons_new ht hex]
        dsimp only
        exact detectPairs_exists_mono table sim getId t now ps _ _ _ _ _
          (duplicate_exists_insert store table (getId x) (getId y) (sim x y) n now)
    · by_cases ht0 : t ≤ sim x0 y0
      · cases hex : duplicate_exists store table (getId x0) (getId y0) with
        | true =>
          rw [detectPairs_cons_dup ht0 hex]
          exact ih store n x y htail ht
        | false =>
          rw [detectPairs_cons_new ht0 hex]
          dsimp only
          exact ih _ _ x y htail ht
      · rw [detectPairs_cons_low ht0]
        exact ih store n x y htail ht

/-- If every scoring pair of the list is already stored, the loop does
nothing: no candidate is created and the store is unchanged. -/
theorem detectPairs_inert {α : Type} (table : String) (sim : α → α → ℚ)
    (getId : α → Nat) (t : ℚ) (now : String) :
    ∀ (ps : List (α × α)) (store : List PotentialDuplicate) (n : Nat),
      (∀ x y : α, (x, y) ∈ ps → t ≤ sim x y →
        duplicate_exists store table (getId x) (getId y) = true) →
      detectPairs table sim getId t now ps store n = ([], store, n) := by
  intro ps
  induction ps with
  | nil => intro store n _; rfl
  | cons p ps ih =>
    obtain ⟨x0, y0⟩ := p
    intro store n h
    by_cases ht : t ≤ sim x0 y0
    · have hex := h x0 y0 (List.mem_cons_self _ _) ht
      rw [detectPairs_cons_dup ht hex]
      exact ih store n (fun x y hm hty => h x y (List.mem_cons_of_mem _ hm) hty)
    · rw [detectPairs_cons_low ht]
      exact ih store n (fun x y hm hty => h x y (List.mem_cons_of_mem _ hm) hty)

/-- `_duplicate_exists` checks both orientations, so it is insensitive to the
order of the two record ids. -/
theorem duplicate_exists_swap (store : List PotentialDuplicate) (tb : String)
    (a b : Nat) :
    duplicate_exists store tb a b = duplicate_exists store tb b a := by
  unfold duplicate_exists
  induction store with
  | nil => rfl
  | cons r rs ih =>
    simp only [List.any_cons, ih]
    congr 1
    rw [Bool.or_comm]

/-- A pair stored in `store1` is stored in `store2` whenever every row of
`store1` has its own pair stored in `store2` (in either orientation). -/
theorem duplicate_exists_transfer (store1 store2 : List PotentialDuplicate)
    (tb : String) (a b : Nat)
    (hcov : ∀ r ∈ store1,
      duplicate_exists store2 r.table_name r.record_id_1 r.record_id_2 = true)
    (h : duplicate_exists store1 tb a b = true) :
    duplicate_exists store2 tb a b = true := by
  unfold duplicate_exists at h
  rcases List.any_eq_true.mp h with ⟨r, hr, hp⟩
  have h2 := hcov r hr
  simp only [Bool.and_eq_true, Bool.or_eq_true, beq_iff_eq] at hp
  obtain ⟨htb, hcases⟩ := hp
  rcases hcases with ⟨ha, hb⟩ | ⟨ha, hb⟩
  · rw [htb, ha, hb] at h2
    exact h2
  · rw [htb, ha, hb] at h2
    rw [duplicate_exists_swap]
    exact h2

/-- Claim C7.  Detection is idempotent: if a second run over the same active
client records starts from any candidate store that still covers (in either
orientation, regardless of status — only the pair key is consulted) every row
produced by the first run, it creates zero new candidates and leaves the
state untouched; and the stored-pair check is orientation-insensitive. -/
theorem C7_detection_idempotent :
    (∀ (t : ℚ) (now1 now2 : String) (st st2 : MdmState),
      st2.clients = st.clients →
      ((detect_client_duplicates t now1 st).2.duplicates).all
        (fun r => duplicate_exists st2.duplicates r.table_name r.record_id_1 r.record_id_2)
        = true →
      detect_client_duplicates t now2 st2 = ([], st2)) ∧
    (∀ (store : List PotentialDuplicate) (tb : String) (a b : Nat),
      duplicate_exists store tb a b = duplicate_exists store tb b a) := by
  constructor
  · intro t now1 now2 st st2 hcl hall
    have hall' : ∀ r ∈ (detectPairs "clients" clientSimilarity Client.id t now1
        (upairs (activeClients st)) st.duplicates st.nextDupId).2.1,
        duplicate_exists st2.duplicates r.table_name r.record_id_1 r.record_id_2 = true :=
      fun r hr => List.all_eq_true.mp hall r hr
    have hinert := detectPairs_inert "clients" clientSimilarity Client.id t now2
        (upairs (activeClients st2)) st2.duplicates st2.nextDupId ?_
    · unfold detect_client_duplicates
      rw [hinert]
    · intro x y hmem ht
      have hact : activeClients st2 = activeClients st := by
        unfold activeClients
        rw [hcl]
      rw [hact] at hmem
      have hcovd := detectPairs_covers "clients" clientSimilarity Client.id t now1
        (upairs (activeClients st)) st.duplicates st.nextDupId x y hmem ht
      exact duplicate_exists_transfer _ _ _ _ _ hall' hcovd
  · exact duplicate_exists_swap

/-- Witness for C7: a second detection run over `stC7`'s two active clients,
starting from the store produced by the first run, creates nothing. -/
theorem C7_detection_idempotent_witness :
    detect_client_duplicates (mkRat 2 5) "t2" st2C7 = ([], st2C7) :=
  C7_detection_idempotent.1 (mkRat 2 5) "t1" "t2" stC7 st2C7 rfl (by decide)

theorem pairwiseDistinct_append (l : List PotentialDuplicate) (x : PotentialDuplicate) :
    pairwiseDistinct (l ++ [x]) =
      (l.all (fun r => !samePair r x) && pairwiseDistinct l) := by
  induction l with
  | nil => simp [pairwiseDistinct]
  | cons r rs ih =>
    simp only [List.cons_append, pairwiseDistinct, List.append_eq, List.all_append,
      List.all_cons, List.all_nil, Bool.and_true]
    rw [ih]
    ac_rfl

/-- The detection loop preserves pairwise distinctness of the stored pairs:
the pre-insert `_duplicate_exists` check is what rules out a second row for a
pair (the store itself would accept it). -/
theorem detectPairs_distinct {α : Type} (table : String) (sim : α → α → ℚ)
    (getId : α → Nat) (t : ℚ) (now : String) :
    ∀ (ps : List (α × α)) (store : List PotentialDuplicate) (n : Nat),
      pairwiseDistinct store = true →
      pairwiseDistinct ((detectPairs table sim getId t now ps store n).2.1) = true := by
  intro ps
  induction ps with
  | nil => intro store n h; exact h
  | cons p ps ih =>
    obtain ⟨x, y⟩ := p
    intro store n h
    by_cases ht : t ≤ sim x y
    · cases hex : duplicate_exists store table (getId x) (getId y) with
      | true =>
        rw [detectPairs_cons_dup ht hex]
        exact ih store n h
      | false =>
        rw [detectPairs_cons_new ht hex]
        dsimp only
        apply ih
        rw [pairwiseDistinct_append, Bool.and_eq_true]
        refine ⟨List.all_eq_true.mpr ?_, h⟩
        intro r hr
        by_contra hne
        have hsp : samePair r { pendingCandidate table (getId x) (getId y) (sim x y) with
            id := some n, created_at := some now } = true := by
          cases hb : samePair r { pendingCandidate table (getId x) (getId y) (sim x y) with
              id := some n, created_at := some now }
          · exact absurd (by rw [hb]; rfl) hne
          · rfl
        have : duplicate_exists store table (getId x) (getId y) = true :=
          List.any_eq_true.mpr ⟨r, hr, hsp⟩
        rw [hex] at this
        cases this
    · rw [detectPairs_cons_low ht]
      exact ih store n h

/-- Claim C8, amended behaviour.  The unordered-pair uniqueness invariant is
maintained solely by the orchestrator: a detection run starting from a store
with pairwise-distinct pairs ends in one (the pre-insert exists check skips
already-covered pairs), while the store itself accepts a duplicate insert
silently, as the counterexample shows. -/
theorem C8_orchestrator_preserves_uniqueness (t : ℚ) (now : String) (st : MdmState)
    (h : pairwiseDistinct st.duplicates = true) :
    pairwiseDistinct (detect_client_duplicates t now st).2.duplicates = true :=
  detectPairs_distinct "clients" clientSimilarity Client.id t now
    (upairs (activeClients st)) st.duplicates st.nextDupId h

/-- Witness for C8: a detection run over `stC7` (empty store) ends with
pairwise-distinct stored pairs. -/
theorem C8_orchestrator_preserves_uniqueness_witness :
    pairwiseDistinct (detect_client_duplicates (mkRat 2 5) "tw" stC7).2.duplicates = true :=
  C8_orchestrator_preserves_uniqueness (mkRat 2 5) "tw" stC7 (by decide)

end Mdm
